import Mathlib

/-!
Verification development for the spotimine command-line client.

The definitions below are a shallow embedding of the Rust sources
(`src/account.rs`, `src/api.rs`, `src/config.rs`, `src/data.rs`,
`src/utils.rs`).  Machine integers (`u64`, `u32`) are modelled as `Nat`,
with an explicit `% 2 ^ 32` at the places the source performs an
`as u32` cast.  Fallible Rust code (`Result<_, String>`) is modelled by
the `Outcome` type below, which also has a `panicked` constructor so
that `unwrap`/`expect` panics are observable.  Side effects (HTTP
requests, sleeps, token refreshes) are modelled as explicit event
traces; HTTP responses are supplied by an oracle list consumed one
response per attempted request.
-/

namespace Spotimine

/-- Result of running a piece of Rust code: an `Ok` value, an `Err` value,
or a panic (`unwrap`/`expect` on a missing value). -/
inductive Outcome (α : Type) where
  | ok (a : α)
  | err (e : String)
  | panicked (msg : String)
deriving Repr, DecidableEq

def Outcome.bind {α β : Type} : Outcome α → (α → Outcome β) → Outcome β
  | ok a, f => f a
  | err e, _ => err e
  | panicked m, _ => panicked m

instance : Monad Outcome where
  pure := Outcome.ok
  bind := Outcome.bind

/-- Models `Option::ok_or(..)?`: an error (not a panic) when the value is
absent. -/
def okOr {α : Type} (o : Option α) (e : String) : Outcome α :=
  match o with
  | some a => Outcome.ok a
  | none => Outcome.err e

/-- The payload of a Rust `Option::unwrap` panic. -/
def unwrapPanicMsg : String := "called Option::unwrap() on a None value"

/-- Models `Option::unwrap()`: panics when the value is absent. -/
def unwrapO {α : Type} (o : Option α) : Outcome α :=
  match o with
  | some a => Outcome.ok a
  | none => Outcome.panicked unwrapPanicMsg

/-- Element-wise fallible map, mirroring the source's loops that push
`from_json(item)?` results into a vector (short-circuits on the first
failure, preserving order). -/
def mapO {α β : Type} (f : α → Outcome β) : List α → Outcome (List β)
  | [] => Outcome.ok []
  | x :: xs => do
    let b ← f x
    let rest ← mapO f xs
    Outcome.ok (b :: rest)

/-- Model of `serde_json::Value`. Only non-negative integral numbers occur
in the fields this development reasons about, so numbers are `Nat`. -/
inductive Json where
  | null
  | bool (b : Bool)
  | num (n : Nat)
  | str (s : String)
  | arr (items : List Json)
  | obj (fields : List (String × Json))
deriving Repr

/-- Indexing `value["key"]`: `serde_json` returns `Value::Null` both for a
missing key and for indexing a non-object. -/
def Json.get : Json → String → Json
  | Json.obj fields, k =>
    match fields.find? (fun p => p.1 == k) with
    | some p => p.2
    | none => Json.null
  | _, _ => Json.null

def Json.as_str : Json → Option String
  | Json.str s => some s
  | _ => none

def Json.as_u64 : Json → Option Nat
  | Json.num n => some n
  | _ => none

def Json.as_bool : Json → Option Bool
  | Json.bool b => some b
  | _ => none

def Json.as_array : Json → Option (List Json)
  | Json.arr items => some items
  | _ => none

def Json.isNull : Json → Bool
  | Json.null => true
  | _ => false

/-- Whether an object literally carries the given key (used to model the
serde field-name/alias dispatch). -/
def Json.hasField : Json → String → Bool
  | Json.obj fields, k => fields.any (fun p => p.1 == k)
  | _, _ => false

/-! ### String helpers

Lean's own `String.splitOn`, `String.toNat?`, `String.trim` and
`String.replace` are defined by well-founded recursion and do not reduce
definitionally, so the handful of string operations the source uses are
given structurally recursive models over the character list. -/

/-- Accumulator pass of `splitChar` (current fragment kept reversed). -/
def splitCharAux (c : Char) : List Char → List Char → List (List Char)
  | [], acc => [acc.reverse]
  | x :: xs, acc =>
    if x = c then acc.reverse :: splitCharAux c xs []
    else splitCharAux c xs (x :: acc)

/-- Rust `str::split(c)`: splits at every occurrence of `c`, keeping empty
fragments (an empty string yields one empty fragment). -/
def splitChar (c : Char) (s : String) : List String :=
  (splitCharAux c s.data []).map String.mk

/-- Rust `u64::from_str` restricted to plain decimal numerals: any
non-digit character (or an empty string) fails. -/
def parseU64 (s : String) : Option Nat :=
  if s.data ≠ [] ∧ s.data.all (fun ch => ch.isDigit) then
    some (s.data.foldl (fun n ch => n * 10 + (ch.toNat - 48)) 0)
  else none

/-- Rust `str::trim`: removes leading and trailing whitespace. -/
def trimString (s : String) : String :=
  String.mk (((s.data.dropWhile Char.isWhitespace).reverse.dropWhile
    Char.isWhitespace).reverse)

/-- Rust `str::replace(c, "")`: removes every occurrence of the
character. -/
def removeChar (c : Char) (s : String) : String :=
  String.mk (s.data.filter (fun ch => ch ≠ c))

/-! ### Account and the `Time` field (src/account.rs) -/

/-- The `Account` struct (src/account.rs:13-20); `expires_at` is the `val`
of the wrapped `Time`. -/
structure Account where
  access_token : String
  expires_at : Nat
  refresh_token : String
  scope : String
deriving Repr, DecidableEq

/-- The custom `Serialize for Time` (src/account.rs:137-153): a stored value
above 100000 is written unchanged; otherwise the current epoch time is
added at serialization time. -/
def Time.serialize (now val : Nat) : Json :=
  if val > 100000 then Json.num val else Json.num (val + now)

/-- The custom `Deserialize for Time` via `TimeVisitor`
(src/account.rs:155-179): the number read is stored unchanged. -/
def Time.deserialize (j : Json) : Outcome Nat :=
  match j with
  | Json.num n => Outcome.ok n
  | _ => Outcome.err "a u64"

/-- Serde-derived serialization of `Account` (fields in declaration order,
`expires_at` through the custom `Time` serializer). -/
def Account.serialize (now : Nat) (a : Account) : Json :=
  Json.obj [("access_token", Json.str a.access_token),
            ("expires_at", Time.serialize now a.expires_at),
            ("refresh_token", Json.str a.refresh_token),
            ("scope", Json.str a.scope)]

/-- Serde-derived deserialization of `Account`; the field attribute
`#[serde(alias = "expires_in")]` makes the legacy key `expires_in` feed
the `expires_at` field when `expires_at` itself is absent.  This is the
parser applied both to the config file and to token-endpoint responses
(authorization-code exchange in `get_token`, refresh in
`Account::refresh`). -/
def Account.deserialize (j : Json) : Outcome Account := do
  let tok ← okOr (j.get "access_token").as_str "missing field access_token"
  let texp ← Time.deserialize
    (if j.hasField "expires_at" then j.get "expires_at" else j.get "expires_in")
  let rt ← okOr (j.get "refresh_token").as_str "missing field refresh_token"
  let sc ← okOr (j.get "scope").as_str "missing field scope"
  Outcome.ok { access_token := tok, expires_at := texp, refresh_token := rt, scope := sc }

/-- `Account::needs_refresh` (src/account.rs:26-33), with the ambient
`SystemTime::now()` made an explicit `now` parameter
(`String::is_empty` is modelled as equality with the empty string). -/
def Account.needs_refresh (a : Account) (now : Nat) : Bool :=
  !(a.refresh_token == "") && decide (now > a.expires_at)

/-! ### Credential store round trip (src/config.rs)

`Config` wraps `accounts: HashMap<String, Account>`; serde derives its
(de)serialization, so the JSON round trip of the store is the entry-wise
round trip of each account (keys are plain strings).  The mapping is
modelled as an association list. -/

/-- Serialize-then-deserialize of a whole credential store at current time
`now`. -/
def CredentialStore.roundtrip (now : Nat) (c : List (String × Account)) :
    Outcome (List (String × Account)) :=
  mapO (fun p => do
    let a ← Account.deserialize (Account.serialize now p.2)
    Outcome.ok (p.1, a)) c

/-! ### The resilient API client (src/api.rs) -/

/-- One HTTP response handed to `do_api` by the oracle; `retryAfter` is the
raw `Retry-After` header when present. -/
structure HttpResponse where
  status : Nat
  retryAfter : Option String
  body : String
deriving Repr, DecidableEq

/-- Observable side effects of `do_api`: an outbound request, a token
refresh, or a blocking sleep of the given number of seconds. -/
inductive ApiEvent where
  | request (method endpoint body : String)
  | refresh
  | sleep (secs : Nat)
deriving Repr, DecidableEq

/-- `do_api` (src/api.rs:21-67).  The response oracle supplies one
`HttpResponse` per attempted request (an exhausted oracle models a
transport error, `ureq` returning a non-`Status` error).  `refreshes`
supplies the success/failure of each `Account::refresh` performed by the
401 arm; the source unwraps that result with `expect`, so a failed
refresh panics.  Statuses below 400 are `Ok` responses in `ureq`.
Retryable arms (401, 423, 429) re-enter `do_api` with the identical
method, endpoint and body. -/
def do_api (method endpoint body : String) :
    List Bool → List HttpResponse → Outcome String × List ApiEvent
  | _, [] =>
    (Outcome.err "Failed to send request: transport error",
     [ApiEvent.request method endpoint body])
  | refreshes, r :: rest =>
    let req := ApiEvent.request method endpoint body
    if r.status < 400 then
      (Outcome.ok r.body, [req])
    else if r.status = 401 then
      match refreshes with
      | true :: rs =>
        let next := do_api method endpoint body rs rest
        (next.1, req :: ApiEvent.refresh :: next.2)
      | _ => (Outcome.panicked "Failed to refresh access token", [req, ApiEvent.refresh])
    else if r.status = 403 then
      (Outcome.err "User account OAuth is invalid. Please try re-adding this account, then try again.", [req])
    else if r.status = 423 ∨ r.status = 429 then
      match r.retryAfter with
      | some v =>
        match parseU64 v with
        | some secs =>
          let next := do_api method endpoint body refreshes rest
          (next.1, req :: ApiEvent.sleep secs :: next.2)
        | none => (Outcome.panicked "invalid digit found in string", [req])
      | none =>
        let next := do_api method endpoint body refreshes rest
        (next.1, req :: ApiEvent.sleep 5 :: next.2)
    else if r.status ≤ 499 then
      (Outcome.err "Client error", [req])
    else if r.status ≤ 599 then
      (Outcome.err "Server error", [req])
    else
      (Outcome.err "Unknown error", [req])

/-- Number of outbound requests in an event trace. -/
def requestCount (evs : List ApiEvent) : Nat :=
  evs.countP (fun e => match e with
    | ApiEvent.request _ _ _ => true
    | _ => false)

/-- Number of seconds slept, as read from the `Retry-After` header by the
423/429 arm: 5 when the header is absent, the parsed value when it is a
decimal numeral (`u64::from_str` panics otherwise, via `unwrap`). -/
def retryDelay : Option String → Option Nat
  | none => some 5
  | some v => parseU64 v

/-! ### Domain model (src/data.rs) -/

structure SpotifyURI where
  uri : String
deriving Repr, DecidableEq

/-- `SpotifyURI::get_id` (src/data.rs:71-73): last `:`-separated segment.
`split(':').last()` is never `None` on a `&str`, so the source's `unwrap`
cannot fire and the default branch of `getLastD` is dead. -/
def SpotifyURI.get_id (u : SpotifyURI) : String :=
  (splitChar ':' u.uri).getLastD ""

structure Artist where
  name : String
  uri : SpotifyURI
deriving Repr, DecidableEq

structure Track where
  name : String
  artists : List Artist
  duration : Nat
  explicit : Bool
  uri : SpotifyURI
deriving Repr, DecidableEq

structure PlaylistTrack where
  track : Track
  added_at : Nat
deriving Repr, DecidableEq

inductive Visibility where
  | Public
  | Private
  | Collaborative
deriving Repr, DecidableEq

/-- `Visibility::from_api` (src/data.rs:87-95): collaborative wins over
public. -/
def Visibility.from_api (collaborative public : Bool) : Visibility :=
  if collaborative then Visibility.Collaborative
  else if public then Visibility.Public
  else Visibility.Private

structure Playlist where
  name : String
  description : String
  visibility : Visibility
  followers : Nat
  tracks : List PlaylistTrack
  uri : SpotifyURI
deriving Repr, DecidableEq

/-- Models `str::parse::<u64>().unwrap()` (panics on a non-numeral). -/
def parse_u64 (s : String) : Outcome Nat :=
  match parseU64 s with
  | some n => Outcome.ok n
  | none => Outcome.panicked "invalid digit found in string"

/-- `rfc3339_to_epoch_time` (src/utils.rs:55-76): fixed-width calendar
approximation (30-day months, 360-day years).  Out-of-range indexing of
the split results and numeral-parse failures panic, as in the source. -/
def rfc3339_to_epoch_time (s : String) : Outcome Nat :=
  let s2 := removeChar 'Z' s
  match splitChar 'T' s2 with
  | p0 :: p1 :: _ => do
    let date ← mapO parse_u64 (splitChar '-' p0)
    let time ← mapO parse_u64 (splitChar ':' p1)
    match time, date with
    | t0 :: t1 :: t2 :: _, d0 :: d1 :: d2 :: _ =>
      Outcome.ok (t0 * 3600 + t1 * 60 + t2 + d2 * 86400 + d1 * 2592000 + d0 * 31104000)
    | _, _ => Outcome.panicked "index out of bounds"
  | _ => Outcome.panicked "index out of bounds"

/-- `impl Content for Artist`, `from_json` (src/data.rs:291-299): `name`
is extracted with `ok_or`, but `uri` with a bare `unwrap`. -/
def Artist.from_json (j : Json) : Outcome Artist := do
  let name ← okOr (j.get "name").as_str "missing name field?"
  let uri ← unwrapO (j.get "uri").as_str
  Outcome.ok { name := name, uri := { uri := uri } }

/-- `impl Content for Track`, `from_json` (src/data.rs:251-267): the
`artists` array is extracted with `ok_or`, but `name`, `duration_ms`,
`explicit` and `uri` are all extracted with bare `unwrap`s, which panic
when the field is missing or has the wrong type.  `duration` is
`(duration_ms / 1000) as u32`. -/
def Track.from_json (j : Json) : Outcome Track := do
  let arr ← okOr (j.get "artists").as_array
    "Expected array deserializing artists for track"
  let artists ← mapO Artist.from_json arr
  let name ← unwrapO (j.get "name").as_str
  let duration_ms ← unwrapO (j.get "duration_ms").as_u64
  let explicit ← unwrapO (j.get "explicit").as_bool
  let uri ← unwrapO (j.get "uri").as_str
  Outcome.ok { name := name, artists := artists,
               duration := duration_ms / 1000 % 2 ^ 32, explicit := explicit,
               uri := { uri := uri } }

/-- `impl Content for PlaylistTrack`, `from_json` (src/data.rs:276-289). -/
def PlaylistTrack.from_json (j : Json) : Outcome PlaylistTrack := do
  let track ← Track.from_json (j.get "track")
  let ts ← okOr (j.get "added_at").as_str "timestamp missing"
  let added ← rfc3339_to_epoch_time ts
  Outcome.ok { track := track, added_at := added }

/-- `impl Content for Playlist`, `from_json` (src/data.rs:334-374): the
entries of `tracks.items` whose `track` field is JSON null are removed
(`retain`) before each survivor is parsed as a `PlaylistTrack`;
`description` is trimmed (its `parse::<String>()` is infallible);
`collaborative`, `public` and `followers.total` default via
`unwrap_or`; `followers` is cast `as u32`. -/
def Playlist.from_json (j : Json) : Outcome Playlist := do
  let items ← okOr ((j.get "tracks").get "items").as_array
    "Expected array deserializing tracks"
  let retained := items.filter (fun x => !(x.get "track").isNull)
  let tracks ← mapO PlaylistTrack.from_json retained
  let name ← okOr (j.get "name").as_str "missing name field?"
  let description ← okOr (j.get "description").as_str "missing description field?"
  let visibility := Visibility.from_api
    ((j.get "collaborative").as_bool.getD false)
    ((j.get "public").as_bool.getD false)
  let followers := ((j.get "followers").get "total").as_u64.getD 0 % 2 ^ 32
  let uri ← okOr (j.get "uri").as_str "missing URI field?"
  Outcome.ok { name := name, description := trimString description,
               visibility := visibility, followers := followers,
               tracks := tracks, uri := { uri := uri } }

/-! ### Batched reads: `Content::from_ids` (src/data.rs:177-193) -/

/-- The loop body of `from_ids`: ids are pushed into `vec_ids`, and a
batched request is issued only when `vec_ids.len() == 50`, after which
the buffer is cleared.  When the loop ends, whatever remains in the
buffer is dropped without ever being requested.  The result is the list
of id groups for which a request is issued, in order. -/
def from_ids_go : List String → List String → List (List String)
  | _, [] => []
  | acc, id :: rest =>
    let acc2 := acc ++ [id]
    if acc2.length = 50 then acc2 :: from_ids_go [] rest
    else from_ids_go acc2 rest

/-- The batched requests issued by `Content::from_ids` for a given id
list. -/
def from_ids_batches (ids : List String) : List (List String) :=
  from_ids_go [] ids

/-- 120 distinct ids, the input named by the chunking claim. -/
def ids120 : List String := (List.range 120).map (fun n => toString n)

/-! ### Bulk playlist operations (src/data.rs:402-577) -/

/-- One call recorded from the bulk operations; `body` is the chunk of
track identifiers sent with the call. -/
structure ApiCall where
  method : String
  endpoint : String
  body : List String
deriving Repr, DecidableEq

/-- `slice::chunks(50)`: consecutive groups of 50 with a final shorter
group; an empty list yields no chunk. -/
def chunks50 {α : Type} (l : List α) : List (List α) :=
  match l with
  | [] => []
  | x :: xs => ((x :: xs).take 50) :: chunks50 ((x :: xs).drop 50)
termination_by l.length
decreasing_by simp; omega

/-- `Playlist::sort_tracks` (src/data.rs:402-404): stable in-place sort by
`added_at`, descending (`b.added_at.cmp(&a.added_at)`). -/
def sort_tracks (tracks : List PlaylistTrack) : List PlaylistTrack :=
  tracks.mergeSort (fun a b => decide (b.added_at ≤ a.added_at))

/-- The per-track identifier pushed into the request buffer by
`put_tracks_online` and `clear_tracks_online`: the bare id for the liked
endpoint, the full URI otherwise. -/
def track_request_ids (liked : Bool) (tracks : List PlaylistTrack) : List String :=
  tracks.map (fun t => if liked then t.track.uri.get_id else t.track.uri.uri)

/-- Endpoint used by both bulk track writes. -/
def tracks_endpoint (p : Playlist) (liked : Bool) : String :=
  if liked then "me/tracks" else "playlists/" ++ p.uri.get_id ++ "/tracks"

/-- `Playlist::put_tracks_online` (src/data.rs:492-521) as its request
schedule: the tracks are first sorted (descending `added_at`), then their
identifiers are chunked in groups of 50 and one PUT (liked) or POST
(playlist) is issued per chunk, in order. -/
def put_tracks_requests (p : Playlist) (liked : Bool) : List ApiCall :=
  (chunks50 (track_request_ids liked (sort_tracks p.tracks))).map
    (fun chunk => { method := if liked then "PUT" else "POST",
                    endpoint := tracks_endpoint p liked, body := chunk })

/-- `Playlist::clear_tracks_online` (src/data.rs:523-555) as its request
schedule: the tracks (unsorted) are chunked in groups of 50 and one
DELETE is issued per chunk, in order. -/
def clear_tracks_requests (p : Playlist) (liked : Bool) : List ApiCall :=
  (chunks50 (track_request_ids liked p.tracks)).map
    (fun chunk => { method := "DELETE",
                    endpoint := tracks_endpoint p liked, body := chunk })

/-- `Playlist::copy_to_liked` (src/data.rs:442-457).  `confirm` is the
answer of `user_yn(.., false)`; a negative answer returns `Err("Aborted")`
before any API interaction.  On a positive answer the destination's liked
songs are fetched (`get_liked_songs`, abstracted here as the playlist
`liked` plus the read-only calls `fetchCalls` it performs), then cleared
batch-wise, then the source playlist's tracks are re-added batch-wise.
The second component is the full ordered call trace. -/
def copy_to_liked (confirm : Bool) (src : Playlist) (liked : Playlist)
    (fetchCalls : List ApiCall) : Outcome Unit × List ApiCall :=
  if !confirm then (Outcome.err "Aborted", [])
  else
    (Outcome.ok (),
      fetchCalls ++ clear_tracks_requests liked true ++
        put_tracks_requests { liked with tracks := src.tracks } true)

/-! ### Concrete inputs used by individual claims -/

/-- Account with a refresh token, expiring at 5, used to witness C6. -/
def c6AccountWithToken : Account :=
  { access_token := "at", expires_at := 5, refresh_token := "rt", scope := "sc" }

/-- Account with an empty refresh token, used to witness C6. -/
def c6AccountNoToken : Account :=
  { access_token := "at", expires_at := 5, refresh_token := "", scope := "sc" }

/-- A token-endpoint response carrying the relative duration
`expires_in = 3600`, as returned on code exchange and on refresh. -/
def c1TokenResponse : Json :=
  Json.obj [("access_token", Json.str "t"), ("expires_in", Json.num 3600),
            ("refresh_token", Json.str "r"), ("scope", Json.str "s")]

/-- The account the source builds from `c1TokenResponse`. -/
def c1ParsedAccount : Account :=
  { access_token := "t", expires_at := 3600, refresh_token := "r", scope := "s" }

/-- Account whose stored `expires_at` is a small (relative-looking)
value, used by C1's witness. -/
def c1SmallAccount : Account :=
  { access_token := "t", expires_at := 3600, refresh_token := "r", scope := "s" }

/-- A one-account credential store whose `expires_at` is below the 100000
threshold. -/
def c4SmallStore : List (String × Account) :=
  [("me", { access_token := "t", expires_at := 3600, refresh_token := "r", scope := "s" })]

/-- A one-account credential store whose `expires_at` is above the 100000
threshold. -/
def c4LargeStore : List (String × Account) :=
  [("me", { access_token := "t", expires_at := 1700000000, refresh_token := "r", scope := "s" })]

/-- A 401 Unauthorized response. -/
def r401 : HttpResponse := { status := 401, retryAfter := none, body := "" }

/-- A 429 response carrying `Retry-After: 2`. -/
def r429 : HttpResponse := { status := 429, retryAfter := some "2", body := "" }

/-- A 200 response with body "B". -/
def r200B : HttpResponse := { status := 200, retryAfter := none, body := "B" }

/-- A playlist entry whose `track` field is JSON null (a deleted or
unavailable track). -/
def nullTrackEntry : Json :=
  Json.obj [("track", Json.null), ("added_at", Json.str "2023-01-01T00:00:00Z")]

/-- A playlist JSON whose `tracks.items` holds exactly one entry, with a
null `track`. -/
def nullTrackPlaylist : Json :=
  Json.obj [("name", Json.str "p"), ("description", Json.str ""),
            ("collaborative", Json.bool false), ("public", Json.bool false),
            ("uri", Json.str "spotify:playlist:x"),
            ("tracks", Json.obj [("items", Json.arr [nullTrackEntry])])]

/-- The playlist value `Playlist::from_json` produces for
`nullTrackPlaylist`: zero entries. -/
def nullTrackParsed : Playlist :=
  { name := "p", description := "", visibility := Visibility.Private,
    followers := 0, tracks := [], uri := { uri := "spotify:playlist:x" } }

/-- A track JSON whose `name` field is missing while every other required
field is present and well-typed. -/
def c9TrackMissingName : Json :=
  Json.obj [("artists", Json.arr []), ("duration_ms", Json.num 1000),
            ("explicit", Json.bool false), ("uri", Json.str "spotify:track:x")]

/-! ## Supporting lemmas -/

@[simp] theorem Outcome.ok_bind {α β : Type} (a : α) (f : α → Outcome β) :
    (Outcome.ok a >>= f) = f a := rfl

@[simp] theorem Outcome.err_bind {α β : Type} (e : String) (f : α → Outcome β) :
    ((Outcome.err e : Outcome α) >>= f) = Outcome.err e := rfl

@[simp] theorem Outcome.panicked_bind {α β : Type} (m : String) (f : α → Outcome β) :
    ((Outcome.panicked m : Outcome α) >>= f) = Outcome.panicked m := rfl

theorem Outcome.bind_eq_ok {α β : Type} {m : Outcome α} {f : α → Outcome β} {b : β} :
    (m >>= f) = Outcome.ok b ↔ ∃ a, m = Outcome.ok a ∧ f a = Outcome.ok b := by
  cases m <;> simp [Bind.bind, Outcome.bind]

theorem okOr_eq_ok {α : Type} {o : Option α} {e : String} {a : α} :
    okOr o e = Outcome.ok a ↔ o = some a := by
  cases o <;> simp [okOr]

theorem mapO_cons {α β : Type} (f : α → Outcome β) (x : α) (xs : List α) :
    mapO f (x :: xs) =
      (f x >>= fun b => mapO f xs >>= fun rest => Outcome.ok (b :: rest)) := rfl

theorem mapO_length {α β : Type} (f : α → Outcome β) :
    ∀ (l : List α) (out : List β), mapO f l = Outcome.ok out → out.length = l.length := by
  intro l
  induction l with
  | nil =>
    intro out h
    simp [mapO] at h
    simp [← h]
  | cons x xs ih =>
    intro out h
    rw [mapO_cons, Outcome.bind_eq_ok] at h
    obtain ⟨b, _, h⟩ := h
    rw [Outcome.bind_eq_ok] at h
    obtain ⟨rest, hrest, h⟩ := h
    cases h
    simp [ih rest hrest]

theorem Time.deserialize_eq_ok {j : Json} {n : Nat} :
    Time.deserialize j = Outcome.ok n ↔ j = Json.num n := by
  cases j <;> simp [Time.deserialize]

/-- A serialize-then-deserialize round trip preserves an account whose
stored expiry is above the 100000 threshold. -/
theorem account_roundtrip_of_large (now : Nat) (a : Account)
    (h : 100000 < a.expires_at) :
    Account.deserialize (Account.serialize now a) = Outcome.ok a := by
  have hs : Time.serialize now a.expires_at = Json.num a.expires_at := by
    simp [Time.serialize, h]
  simp [Account.serialize, hs, Account.deserialize, Json.get, Json.hasField,
        Json.as_str, Time.deserialize, Bind.bind, Outcome.bind, okOr]

/-! ## C6: the expiry predicate -/

/-- C6: for every account and time, `needs_refresh` returns exactly
`now > expires_at` when the refresh token is non-empty, and `false`
whenever the refresh token is empty. -/
theorem c6_needs_refresh_exact (a : Account) (now : Nat) :
    (a.refresh_token ≠ "" → a.needs_refresh now = decide (now > a.expires_at)) ∧
    (a.refresh_token = "" → a.needs_refresh now = false) := by
  constructor
  · intro h
    simp [Account.needs_refresh, h]
  · intro h
    simp [Account.needs_refresh, h]

/-- Witness for C6 at concrete accounts and `now = 10`. -/
theorem c6_needs_refresh_exact_witness :
    c6AccountWithToken.needs_refresh 10 = decide (10 > c6AccountWithToken.expires_at) ∧
    c6AccountNoToken.needs_refresh 10 = false :=
  ⟨(c6_needs_refresh_exact c6AccountWithToken 10).1 (by decide),
   (c6_needs_refresh_exact c6AccountNoToken 10).2 rfl⟩

/-! ## C1: when the relative `expires_in` is converted -/

/-- Counterexample to C1: parsing a token response whose `expires_in` is
3600 at current time 1700000000 stores 3600 itself in the account — the
current time is NOT added immediately on receipt (the deserializer keeps
the raw value; the addition only happens later, inside `Serialize for
Time`). -/
theorem c1_conversion_not_immediate :
    Account.deserialize c1TokenResponse = Outcome.ok c1ParsedAccount ∧
    c1ParsedAccount.expires_at = 3600 ∧
    ¬ c1ParsedAccount.expires_at = 1700000000 + 3600 :=
  ⟨rfl, rfl, by decide⟩

/-- C1 (amended): the token response's raw `expires_in`/`expires_at`
number is stored in the account unchanged by deserialization, and the
addition of the current time happens lazily at serialization time — an
account serialized at time `now` writes `expires_at + now` when the
stored value is at most 100000, and the stored value unchanged
otherwise. -/
theorem c1_amended_lazy_conversion (now : Nat) (a : Account) (j : Json)
    (acc : Account) (hd : Account.deserialize j = Outcome.ok acc) :
    (Account.serialize now a).get "expires_at" =
      (if 100000 < a.expires_at then Json.num a.expires_at
       else Json.num (a.expires_at + now)) ∧
    (if j.hasField "expires_at" then j.get "expires_at" else j.get "expires_in") =
      Json.num acc.expires_at := by
  constructor
  · simp [Account.serialize, Json.get, Time.serialize]
  · unfold Account.deserialize at hd
    rw [Outcome.bind_eq_ok] at hd
    obtain ⟨tok, _, hd⟩ := hd
    rw [Outcome.bind_eq_ok] at hd
    obtain ⟨texp, htexp, hd⟩ := hd
    rw [Outcome.bind_eq_ok] at hd
    obtain ⟨rt, _, hd⟩ := hd
    rw [Outcome.bind_eq_ok] at hd
    obtain ⟨sc, _, hd⟩ := hd
    cases hd
    exact Time.deserialize_eq_ok.mp htexp

/-- Witness for C1 (amended) at `now = 5`, a stored value of 3600 and the
concrete token response. -/
theorem c1_amended_lazy_conversion_witness :
    ((Account.serialize 5 c1SmallAccount).get "expires_at" =
      (if 100000 < c1SmallAccount.expires_at then Json.num c1SmallAccount.expires_at
       else Json.num (c1SmallAccount.expires_at + 5))) ∧
    ((if c1TokenResponse.hasField "expires_at" then c1TokenResponse.get "expires_at"
      else c1TokenResponse.get "expires_in") = Json.num c1ParsedAccount.expires_at) :=
  c1_amended_lazy_conversion 5 c1SmallAccount c1TokenResponse c1ParsedAccount rfl

/-! ## C4: credential store round trip -/

/-- Counterexample to C4: round-tripping a store holding an account with
`expires_at = 3600` at current time 1700000000 yields `expires_at =
1700003600`, not an identical mapping. -/
theorem c4_roundtrip_counterexample :
    CredentialStore.roundtrip 1700000000 c4SmallStore =
      Outcome.ok [("me", { access_token := "t", expires_at := 1700003600,
                           refresh_token := "r", scope := "s" })] ∧
    ¬ CredentialStore.roundtrip 1700000000 c4SmallStore = Outcome.ok c4SmallStore :=
  ⟨rfl, by decide⟩

/-- C4 (amended): serializing then deserializing a credential store yields
an identical alias-to-account mapping, field for field, provided every
stored `expires_at` is above the 100000 threshold (otherwise the custom
`Time` serializer adds the current time to the stored value once on the
way out, and the value read back differs). -/
theorem c4_roundtrip_above_threshold (now : Nat) (c : List (String × Account))
    (h : ∀ p ∈ c, 100000 < p.2.expires_at) :
    CredentialStore.roundtrip now c = Outcome.ok c := by
  induction c with
  | nil => rfl
  | cons p rest ih =>
    have hp := h p (List.mem_cons_self ..)
    have hr := ih (fun q hq => h q (List.mem_cons_of_mem _ hq))
    unfold CredentialStore.roundtrip at hr ⊢
    rw [mapO_cons]
    simp only [account_roundtrip_of_large now p.2 hp, Outcome.ok_bind, hr]

/-- Witness for C4 (amended) on a concrete one-account store above the
threshold. -/
theorem c4_roundtrip_above_threshold_witness :
    CredentialStore.roundtrip 5 c4LargeStore = Outcome.ok c4LargeStore :=
  c4_roundtrip_above_threshold 5 c4LargeStore (by decide)

/-! ## C5: 423/429 rate-limit handling -/

/-- C5: a 423 or 429 response makes `do_api` read the `Retry-After` header
(5 seconds when absent), sleep that long, and then re-issue the identical
request (same method, endpoint and body) against the rest of the oracle,
recursing until a non-retryable outcome. -/
theorem c5_rate_limit_retry (method endpoint body : String) (refreshes : List Bool)
    (r : HttpResponse) (rest : List HttpResponse) (d : Nat)
    (hs : r.status = 423 ∨ r.status = 429)
    (hd : retryDelay r.retryAfter = some d) :
    do_api method endpoint body refreshes (r :: rest) =
      ((do_api method endpoint body refreshes rest).1,
        ApiEvent.request method endpoint body :: ApiEvent.sleep d ::
          (do_api method endpoint body refreshes rest).2) := by
  rcases hs with h | h <;>
    cases hra : r.retryAfter with
    | none =>
      simp only [hra, retryDelay, Option.some.injEq] at hd
      subst hd
      simp only [do_api]
      simp [h, hra]
    | some v =>
      simp only [hra, retryDelay] at hd
      simp only [do_api]
      simp [h, hra, hd]

/-- Witness for C5: a single 429 carrying `Retry-After: 2` followed by a
success yields one sleep of 2 seconds, exactly one retry, and the retried
response's body. -/
theorem c5_rate_limit_retry_witness :
    do_api "GET" "me" "" [] [r429, r200B] =
      (Outcome.ok "B",
       [ApiEvent.request "GET" "me" "", ApiEvent.sleep 2,
        ApiEvent.request "GET" "me" ""]) := by
  rw [c5_rate_limit_retry "GET" "me" "" [] r429 [r200B] 2 (Or.inr rfl) rfl]
  rfl

/-! ## C2: 401 handling -/

/-- Counterexample to C2: a failing refresh after a 401 panics (the source
unwraps `Account::refresh` with `expect`) instead of propagating a
`Result` error, and three consecutive 401 responses make the client issue
four requests — the 401 arm re-enters `do_api` with no retry bound, so
the retry is not "exactly once". -/
theorem c2_retry_counterexample :
    (do_api "GET" "me" "" [false] [r401]).1 =
      Outcome.panicked "Failed to refresh access token" ∧
    requestCount (do_api "GET" "me" "" [true, true, true] [r401, r401, r401]).2 = 4 ∧
    ¬ requestCount (do_api "GET" "me" "" [true, true, true] [r401, r401, r401]).2 ≤ 2 :=
  ⟨rfl, rfl, by decide⟩

/-- C2 (amended): on a 401 response the client refreshes the token and
re-enters `do_api` with the identical request, recursing with no retry
bound (every further 401 triggers another refresh-and-retry); when the
refresh fails the client panics rather than returning an error.
Non-retryable outcomes of the re-issued request propagate to the
caller. -/
theorem c2_amended_unbounded_retry (method endpoint body : String) (rs : List Bool)
    (r : HttpResponse) (rest : List HttpResponse) (h : r.status = 401) :
    do_api method endpoint body (true :: rs) (r :: rest) =
      ((do_api method endpoint body rs rest).1,
        ApiEvent.request method endpoint body :: ApiEvent.refresh ::
          (do_api method endpoint body rs rest).2) ∧
    do_api method endpoint body [] (r :: rest) =
      (Outcome.panicked "Failed to refresh access token",
        [ApiEvent.request method endpoint body, ApiEvent.refresh]) := by
  constructor
  · simp only [do_api]
    simp [h]
  · simp only [do_api]
    simp [h]

/-- Witness for C2 (amended) at a concrete 401-then-200 oracle. -/
theorem c2_amended_unbounded_retry_witness :
    (do_api "GET" "me" "" [true] [r401, r200B] =
      ((do_api "GET" "me" "" [] [r200B]).1,
        ApiEvent.request "GET" "me" "" :: ApiEvent.refresh ::
          (do_api "GET" "me" "" [] [r200B]).2)) ∧
    (do_api "GET" "me" "" [] [r401, r200B] =
      (Outcome.panicked "Failed to refresh access token",
        [ApiEvent.request "GET" "me" "", ApiEvent.refresh])) :=
  c2_amended_unbounded_retry "GET" "me" "" [] r401 [r200B] rfl

/-! ## C3: batched reads -/

/-- C3 evaluated at the claim's own input: for 120 ids, `from_ids` issues
only TWO batched requests (of 50 ids each) — the final group of 20 ids is
never requested, because the loop only fires on a full buffer of 50 and
the leftover buffer is dropped when the loop ends. -/
theorem c3_from_ids_drops_tail :
    ids120.length = 120 ∧
    (from_ids_batches ids120).map List.length = [50, 50] ∧
    (from_ids_batches ids120).flatten = ids120.take 100 :=
  ⟨rfl, rfl, rfl⟩

/-! ## C7: null tracks in playlist JSON -/

/-- C7: entries of `tracks.items` whose `track` field is null are dropped
before parsing — a successfully parsed playlist has exactly one entry per
non-null-track item; in particular, the concrete playlist JSON with a
single null-track entry parses successfully to a playlist with zero
entries. -/
theorem c7_null_tracks_dropped (j : Json) (items : List Json) (p : Playlist)
    (hi : ((j.get "tracks").get "items").as_array = some items)
    (hp : Playlist.from_json j = Outcome.ok p) :
    p.tracks.length = (items.filter (fun x => !(x.get "track").isNull)).length ∧
    Playlist.from_json nullTrackPlaylist = Outcome.ok nullTrackParsed := by
  refine ⟨?_, rfl⟩
  unfold Playlist.from_json at hp
  rw [Outcome.bind_eq_ok] at hp
  obtain ⟨items2, hitems, hp⟩ := hp
  rw [okOr_eq_ok, hi] at hitems
  cases hitems
  rw [Outcome.bind_eq_ok] at hp
  obtain ⟨tracks, htracks, hp⟩ := hp
  rw [Outcome.bind_eq_ok] at hp
  obtain ⟨name, _, hp⟩ := hp
  rw [Outcome.bind_eq_ok] at hp
  obtain ⟨description, _, hp⟩ := hp
  rw [Outcome.bind_eq_ok] at hp
  obtain ⟨uri, _, hp⟩ := hp
  cases hp
  simpa using mapO_length _ _ _ htracks

/-- Witness for C7 at the concrete single-null-entry playlist JSON. -/
theorem c7_null_tracks_dropped_witness :
    nullTrackParsed.tracks.length =
      ([nullTrackEntry].filter (fun x => !(x.get "track").isNull)).length ∧
    Playlist.from_json nullTrackPlaylist = Outcome.ok nullTrackParsed :=
  c7_null_tracks_dropped nullTrackPlaylist [nullTrackEntry] nullTrackParsed rfl rfl

/-! ## C9: strictness of `Track::from_json` -/

/-- C9 evaluated at the failing input: a track JSON with every required
field except `name` makes `Track::from_json` PANIC (the source unwraps
`json["name"].as_str()`), rather than return a parse error naming the
field as the claim demands. -/
theorem c9_track_from_json_panics :
    Track.from_json c9TrackMissingName = Outcome.panicked unwrapPanicMsg := rfl

/-! ## Chunking lemmas shared by the bulk-operation claims -/

theorem chunks50_flatten {α : Type} (l : List α) : (chunks50 l).flatten = l := by
  induction l using chunks50.induct with
  | case1 => simp [chunks50]
  | case2 x xs ih =>
    rw [chunks50]
    simp only [List.flatten_cons, ih, List.take_append_drop]

theorem chunks50_sizes {α : Type} (l : List α) :
    ∀ c ∈ chunks50 l, c.length ≤ 50 := by
  induction l using chunks50.induct with
  | case1 =>
    intro c hc
    simp [chunks50] at hc
  | case2 x xs ih =>
    intro c hc
    rw [chunks50] at hc
    rcases List.mem_cons.mp hc with hh | hh
    · subst hh
      simp [List.length_take]
    · exact ih c hh

theorem map_body_mk (chunks : List (List String)) (m e : String) :
    ((chunks.map (fun c => ({ method := m, endpoint := e, body := c } : ApiCall))).map
      ApiCall.body) = chunks := by
  induction chunks with
  | nil => rfl
  | cons c cs ih => simp [ih]

theorem calls_all_shape (chunks : List (List String)) (m e : String)
    (h : ∀ c ∈ chunks, c.length ≤ 50) :
    (chunks.map (fun c => ({ method := m, endpoint := e, body := c } : ApiCall))).all
      (fun c => c.method == m && c.endpoint == e && decide (c.body.length ≤ 50)) = true := by
  rw [List.all_eq_true]
  intro x hx
  rw [List.mem_map] at hx
  obtain ⟨c, hc, rfl⟩ := hx
  simp [h c hc]

/-! ## C10: upload order of `put_tracks_online` -/

/-- C10: `put_tracks_online` sorts the playlist's tracks before chunking,
so the identifiers it uploads (the concatenation of its request bodies)
are exactly the tracks in descending-`added_at` order: a permutation of
the playlist's tracks that is pairwise most-recently-added-first, not the
original order. -/
theorem c10_put_tracks_sorted (p : Playlist) (liked : Bool) :
    ((put_tracks_requests p liked).map ApiCall.body).flatten =
      track_request_ids liked (sort_tracks p.tracks) ∧
    (sort_tracks p.tracks).Perm p.tracks ∧
    List.Pairwise (fun a b => b.added_at ≤ a.added_at) (sort_tracks p.tracks) := by
  refine ⟨?_, ?_, ?_⟩
  · rw [put_tracks_requests, map_body_mk, chunks50_flatten]
  · exact List.mergeSort_perm p.tracks _
  · have h := @List.sorted_mergeSort PlaylistTrack
      (fun a b => decide (b.added_at ≤ a.added_at))
      (fun a b c hab hbc =>
        decide_eq_true (Nat.le_trans (of_decide_eq_true hbc) (of_decide_eq_true hab)))
      (fun a b => by
        rcases Nat.le_total b.added_at a.added_at with hl | hl <;> simp [hl])
      p.tracks
    exact h.imp (fun hab => of_decide_eq_true hab)

/-! ## C8: confirmation gating of `copy_to_liked` -/

/-- C8: `copy_to_liked` asks for confirmation before doing anything: on a
negative answer it returns `Err("Aborted")` with an empty call trace (not
a single API call, destination untouched); on a positive answer its trace
is exactly the read-only fetch calls, then the batched deletions (all
DELETE `me/tracks`, at most 50 ids each, covering exactly the
destination's liked songs), and only then the batched re-additions (all
PUT `me/tracks`, at most 50 ids each, covering the source playlist's
tracks). -/
theorem c8_copy_to_liked_confirmation (src liked : Playlist)
    (fetchCalls : List ApiCall) :
    copy_to_liked false src liked fetchCalls = (Outcome.err "Aborted", []) ∧
    copy_to_liked true src liked fetchCalls =
      (Outcome.ok (),
        fetchCalls ++ clear_tracks_requests liked true ++
          put_tracks_requests { liked with tracks := src.tracks } true) ∧
    (clear_tracks_requests liked true).all
      (fun c => c.method == "DELETE" && c.endpoint == "me/tracks" &&
        decide (c.body.length ≤ 50)) = true ∧
    ((clear_tracks_requests liked true).map ApiCall.body).flatten =
      track_request_ids true liked.tracks ∧
    (put_tracks_requests { liked with tracks := src.tracks } true).all
      (fun c => c.method == "PUT" && c.endpoint == "me/tracks" &&
        decide (c.body.length ≤ 50)) = true ∧
    ((put_tracks_requests { liked with tracks := src.tracks } true).map
      ApiCall.body).flatten = track_request_ids true (sort_tracks src.tracks) := by
  refine ⟨rfl, rfl, ?_, ?_, ?_, ?_⟩
  · rw [clear_tracks_requests]
    exact calls_all_shape _ _ _ (chunks50_sizes _)
  · rw [clear_tracks_requests, map_body_mk, chunks50_flatten]
  · rw [put_tracks_requests]
    exact calls_all_shape _ _ _ (chunks50_sizes _)
  · rw [put_tracks_requests, map_body_mk, chunks50_flatten]

end Spotimine
